import Mathlib

/-!
Shallow embedding of the logsalot moderation-logging bot (src/logging.rs,
src/commands.rs) and proofs about its event-classification / notification
pipeline.

Conventions of the embedding:
* serenity builder types (`CreateEmbed`, `CreateMessage`, ...) become plain
  records; builder methods become record updates appending in call order.
* platform identifiers are `Nat`, timestamps are `Int` (the numeric value of
  the Unix timestamp the code formats).
* the message cache `ctx.cache.message(channel, id)` is a function parameter
  `Cache`; `CreateAttachment::url` (refetching attachment bytes over HTTP) is
  a function parameter `Fetch` returning `none` on a failed fetch;
  `SystemTime::now` is a parameter `now`.
* a Rust `panic!` (an `unwrap` of a failed fetch) is modelled as the `.error`
  branch of an `Except Unit _` result.
* the `log_channels` SQLite table is a list of rows; a query result is
  `Except Unit (Option LogChannels)` where `.error` models an I/O failure of
  the database itself.  sqlx's sqlite backend decodes a NULL column requested
  as `&str` into the empty string (it does not error), which `rowGetStr`
  reflects.
* `HashSet` iteration order is unspecified in Rust; the embedding iterates
  the diff sets in sorted order (`Finset.sort`), which no claim depends on.
-/

deriving instance DecidableEq for Except

namespace Logsalot

/-- serenity `PartialMember` as used by `display_name`: only the nickname. -/
structure UserMember where
  nick : Option String
deriving DecidableEq

/-- serenity `User`: the fields read by logging.rs.  `avatar_url`,
`default_avatar_url` and `created_at` are methods in serenity; they are
modelled as fields. -/
structure User where
  id : Nat
  name : String
  global_name : Option String
  member : Option UserMember
  bot : Bool
  avatar_url : Option String
  default_avatar_url : String
  created_at : Int
deriving DecidableEq

/-- A message attachment; only its URL is inspected. -/
structure Attachment where
  url : String
deriving DecidableEq

/-- serenity `Message`: the fields read by logging.rs. -/
structure Message where
  id : Nat
  channel_id : Nat
  guild_id : Option Nat
  author : User
  content : String
  attachments : List Attachment
deriving DecidableEq

/-- `Message::link()`: the jump URL serenity renders for a message. -/
def Message.link (m : Message) : String :=
  let cid := m.channel_id
  let mid := m.id
  match m.guild_id with
  | some g => s!"https://discord.com/channels/{g}/{cid}/{mid}"
  | none => s!"https://discord.com/channels/@me/{cid}/{mid}"

/-- serenity guild `Member`: the fields read by logging.rs.  `joined_at` is
the already-extracted Unix timestamp of `joined_at.timestamp()`. -/
structure Member where
  user : User
  guild_id : Nat
  joined_at : Option Int
deriving DecidableEq

/-- The tagged union of gateway events inspected by `make_embed`
(serenity `FullEvent`); `Other` stands for every unhandled variant. -/
inductive FullEvent where
  | MessageDelete (channel_id : Nat) (deleted_message_id : Nat) (guild_id : Option Nat)
  | MessageUpdate (old_if_available : Option Message) (new : Option Message)
  | GuildMemberAddition (new_member : Member)
  | GuildMemberRemoval (guild_id : Nat) (user : User) (member_data_if_available : Option Member)
  | GuildMemberUpdate (old_if_available : Option Member)
  | Other
deriving DecidableEq

/-- serenity `CreateEmbedAuthor`: name plus icon URL. -/
structure CreateEmbedAuthor where
  name : String
  icon_url : String
deriving DecidableEq

/-- One embed field (name, value, inline flag). -/
structure EmbedField where
  name : String
  value : String
  inline : Bool
deriving DecidableEq

/-- serenity `CreateEmbed` builder state. -/
structure CreateEmbed where
  author : Option CreateEmbedAuthor
  colour : Option Nat
  description : Option String
  fields : List EmbedField
deriving DecidableEq

/-- `CreateEmbed::new()`. -/
def CreateEmbed.new : CreateEmbed := ⟨none, none, none, []⟩

/-- `CreateEmbed::field(name, value, inline)`: appends one field. -/
def CreateEmbed.field (e : CreateEmbed) (name value : String) (inline : Bool) : CreateEmbed :=
  { e with fields := e.fields ++ [⟨name, value, inline⟩] }

/-- serenity `Colour` constants used by logging.rs. -/
def Colour.RED : Nat := 0xE74C3C

/-- serenity `Colour::FADED_PURPLE`. -/
def Colour.FADED_PURPLE : Nat := 0x8882C4

/-- serenity `Colour::DARK_GREEN`. -/
def Colour.DARK_GREEN : Nat := 0x1F8B4C

/-- serenity `Colour::DARK_RED`. -/
def Colour.DARK_RED : Nat := 0x992D22

/-- `CreateAttachment`: the result of refetching one attachment's bytes;
identified here by the URL it was fetched from. -/
structure CreateAttachment where
  url : String
deriving DecidableEq

/-- serenity `CreateAllowedMentions` builder state; only the
`empty_users()` toggle is used. -/
structure CreateAllowedMentions where
  empty_users : Bool
deriving DecidableEq

/-- `CreateAllowedMentions::new()`. -/
def CreateAllowedMentions.new : CreateAllowedMentions := ⟨false⟩

/-- serenity `CreateMessage` builder state. -/
structure CreateMessage where
  content : Option String
  embeds : List CreateEmbed
  files : List CreateAttachment
  reference : Option Nat
  mentions : Option CreateAllowedMentions
deriving DecidableEq

/-- `CreateMessage::new()`. -/
def CreateMessage.new : CreateMessage := ⟨none, [], [], none, none⟩

/-- `CreateMessage::embed(e)`. -/
def CreateMessage.embed (m : CreateMessage) (e : CreateEmbed) : CreateMessage :=
  { m with embeds := m.embeds ++ [e] }

/-- `CreateMessage::add_file(a)`. -/
def CreateMessage.add_file (m : CreateMessage) (a : CreateAttachment) : CreateMessage :=
  { m with files := m.files ++ [a] }

/-- `CreateMessage::reference_message(&message)`: records the id of the
primary message the follow-up replies to. -/
def CreateMessage.reference_message (m : CreateMessage) (id : Nat) : CreateMessage :=
  { m with reference := some id }

/-- `CreateMessage::allowed_mentions(am)`. -/
def CreateMessage.allowed_mentions (m : CreateMessage) (am : CreateAllowedMentions) : CreateMessage :=
  { m with mentions := some am }

/-- The log category (commands.rs `LogType`). -/
inductive LogType where
  | Member
  | Chat
  | Server
deriving DecidableEq

/-- `LogType::as_column_name`. -/
def LogType.as_column_name : LogType → String
  | .Member => "member_logs"
  | .Chat => "chat_logs"
  | .Server => "server_logs"

/-- logging.rs `display_name`: `"@{username} ({nickname_or_global_name})"`
when a nickname or global name exists, else `"@{username}"`. -/
def display_name (user : User) : String :=
  let nick := (user.member.bind (fun member => member.nick)).orElse (fun _ => user.global_name)
  let name := "@" ++ user.name
  match nick with
  | some n => s!"{name} ({n})"
  | none => name

/-- logging.rs `base_embed`: author line with avatar icon, falling back to
the default avatar URL. -/
def base_embed (user : User) : CreateEmbed :=
  { CreateEmbed.new with
      author := some ⟨display_name user, user.avatar_url.getD user.default_avatar_url⟩ }

/-- logging.rs `AsymmetricDiff`. -/
structure AsymmetricDiff where
  added : Finset String
  removed : Finset String
deriving DecidableEq

/-- logging.rs `asymmetric_diff`: collect both inputs into hash sets, then
erase every element of `froml` from `added` and every element of `tol` from
`removed`. -/
def asymmetric_diff (froml tol : List String) : AsymmetricDiff :=
  let removed := froml.toFinset
  let added := tol.toFinset
  let added := froml.foldl (fun s item => s.erase item) added
  let removed := tol.foldl (fun s item => s.erase item) removed
  { removed := removed, added := added }

/-- logging.rs `pluralize`: singular exactly when the count is 1. -/
def pluralize (singular plural : String) (count : Nat) : String :=
  match count with
  | 1 => singular
  | _ => plural

/-- The local message cache `ctx.cache.message(channel_id, message_id)`. -/
abbrev Cache := Nat → Nat → Option Message

/-- `CreateAttachment::url(ctx, url)`: refetch one attachment's bytes;
`none` models a failed fetch. -/
abbrev Fetch := String → Option CreateAttachment

/-- The tuple `make_embed` yields for a loggable event: primary message,
category, guild, optional follow-ups. -/
abbrev Payload := CreateMessage × LogType × Nat × Option (List CreateMessage)

/-- The sequential fetch loop over a list of URLs: stops at the first
failed fetch, otherwise keeps the fetched files in order. -/
def fetch_all (fetch : Fetch) : List String → Option (List CreateAttachment)
  | [] => some []
  | url :: rest =>
    match fetch url with
    | none => none
    | some a =>
      match fetch_all fetch rest with
      | none => none
      | some files => some (a :: files)

/-- Iteration over a `HashSet<String>` (`difference.added.iter()`): Rust
leaves the order unspecified; the embedding iterates in sorted order.
(`insertionSort` rather than `Finset.sort` so the kernel can evaluate it.) -/
def hashset_iter (s : Finset String) : List String :=
  Quot.liftOn s.val (fun l => l.insertionSort (fun a b => a ≤ b))
    (fun _ _ h =>
      List.eq_of_perm_of_sorted
        ((List.perm_insertionSort _ _).trans ((List.Perm.trans h (List.perm_insertionSort _ _).symm)))
        (List.sorted_insertionSort _ _) (List.sorted_insertionSort _ _))

/-- The follow-up construction of the message-update arm: one follow-up for
a nonempty `added` set ("Added ...") and one for a nonempty `removed` set
("Removed ..."), each carrying the refetched files; a failed fetch
(`CreateAttachment::url(..).await.ok()?`) aborts with `none`. -/
def update_followups (fetch : Fetch) (difference : AsymmetricDiff) : Option (List CreateMessage) :=
  let addedFollowups : Option (List CreateMessage) :=
    if difference.added ≠ ∅ then
      match fetch_all fetch (hashset_iter difference.added) with
      | none => none
      | some files =>
        let w := pluralize ("attachment") ("attachments") difference.added.card
        some [{ CreateMessage.new with content := some (s!"Added {w}:"), files := files }]
    else some []
  let removedFollowups : Option (List CreateMessage) :=
    if difference.removed ≠ ∅ then
      match fetch_all fetch (hashset_iter difference.removed) with
      | none => none
      | some files =>
        let w := pluralize ("attachment") ("attachments") difference.removed.card
        some [{ CreateMessage.new with content := some (s!"Removed {w}:"), files := files }]
    else some []
  match addedFollowups, removedFollowups with
  | some hd, some tl => some (hd ++ tl)
  | _, _ => none

/-- logging.rs `make_embed`: classify a gateway event and render the draft.
`.ok none` is suppression, `.ok (some payload)` a draft, `.error ()` a panic
(the delete arm `unwrap`s each attachment refetch). -/
def make_embed (ctxCache : Cache) (fetch : Fetch) (now : Int) (event : FullEvent) :
    Except Unit (Option Payload) :=
  match event with
  | .MessageDelete channel_id deleted_message_id guild_id =>
    match guild_id with
    | none => .ok none
    | some gid =>
      match ctxCache channel_id deleted_message_id with
      | none => .ok none
      | some message =>
        if message.author.bot then .ok none
        else
          let message_content := if message.content ≠ "" then message.content else "None"
          let aid := message.author.id
          let aname := message.author.name
          let chid := message.channel_id
          let ts := now
          let log_embed :=
            ({ base_embed message.author with
                colour := some Colour.RED,
                description :=
                  some (s!"A message by <@{aid}> (**{aname}**) was deleted in <#{chid}>.") }
              |>.field ("Content") message_content false
              |>.field ("Timestamp") (s!"<t:{ts}>") true)
          if message.attachments ≠ [] then
            let log_embed :=
              log_embed.field ("No. Attachments") (toString message.attachments.length) true
            match fetch_all fetch (message.attachments.map (fun attachment => attachment.url)) with
            | none => .error ()
            | some files =>
              let followup_message := { CreateMessage.new with files := files }
              .ok (some (CreateMessage.new.embed log_embed, .Chat, gid, some [followup_message]))
          else
            .ok (some (CreateMessage.new.embed log_embed, .Chat, gid, some []))
  | .MessageUpdate old_if_available new? =>
    match old_if_available with
    | none => .ok none
    | some old =>
      if old.author.bot then .ok none
      else
        match old.guild_id with
        | none => .ok none
        | some guild_id =>
          match new? with
          | none => .ok none
          | some new =>
            let nid := new.author.id
            let nname := new.author.name
            let nch := new.channel_id
            let link := new.link
            let description :=
              s!"<@{nid}> (**{nname}**) updated their message in <#{nch}>.\n [Jump to message]({link})"
            let log_embed := { base_embed old.author with colour := some Colour.FADED_PURPLE }
            let log_embed :=
              if old.content ≠ new.content then
                (log_embed.field ("New") new.content false).field ("Previous") old.content false
              else log_embed
            let description :=
              if old.content ≠ new.content then description
              else description ++
                "\n\n Message content hasn't changed. Check followup message(s) for attachment changes."
            let ts := now
            let log_embed := log_embed.field ("Timestamp") (s!"<t:{ts}>") true
            if old.attachments ≠ [] ∨ new.attachments ≠ [] then
              let difference :=
                asymmetric_diff (old.attachments.map (fun a => a.url))
                  (new.attachments.map (fun a => a.url))
              let r := difference.removed.card
              let a := difference.added.card
              let log_embed :=
                log_embed.field ("Attachments") (s!"**Removed**: {r} | **Added**: {a}") true
              match update_followups fetch difference with
              | none => .ok none
              | some followups =>
                .ok (some (CreateMessage.new.embed { log_embed with description := some description },
                  .Chat, guild_id, some followups))
            else
              if old.content ≠ new.content then
                .ok (some (CreateMessage.new.embed { log_embed with description := some description },
                  .Chat, guild_id, some []))
              else .ok none
  | .GuildMemberAddition member =>
    match member.joined_at with
    | none => .ok none
    | some joined =>
      let uid := member.user.id
      let uname := member.user.name
      let created := member.user.created_at
      let embed :=
        ({ base_embed member.user with
            colour := some Colour.DARK_GREEN,
            description := some (s!"<@{uid}> ({uname}) joined.") }
          |>.field ("Joined At") (s!"<t:{joined}:R>") true
          |>.field ("Created At") (s!"<t:{created}:R>") true)
      .ok (some (CreateMessage.new.embed embed, .Member, member.guild_id, none))
  | .GuildMemberRemoval guild_id user member_data_if_available =>
    match member_data_if_available with
    | none => .ok none
    | some member =>
      match member.joined_at with
      | none => .ok none
      | some joined =>
        let uid := user.id
        let uname := user.name
        let created := user.created_at
        let ts := now
        let embed :=
          ({ base_embed user with
              colour := some Colour.DARK_RED,
              description := some (s!"<@{uid}> ({uname}) left.") }
            |>.field ("Joined At") (s!"<t:{joined}:R>") true
            |>.field ("Created At") (s!"<t:{created}:R>") true
            |>.field ("Left At") (s!"<t:{ts}:R>") true)
        .ok (some (CreateMessage.new.embed embed, .Member, guild_id, none))
  | .GuildMemberUpdate old_if_available =>
    match old_if_available with
    | none => .ok none
    | some _ => .ok none
  | .Other => .ok none

/-- One row of the `log_channels` table (commands.rs `LogChannels`). -/
structure LogChannels where
  guild_id : String
  member_logs : Option String
  chat_logs : Option String
  server_logs : Option String
deriving DecidableEq

/-- `LogChannels::new`: a row with all channels unset. -/
def LogChannels.new (guild_id : String) : LogChannels := ⟨guild_id, none, none, none⟩

/-- The `log_channels` table contents. -/
abbrev DB := List LogChannels

/-- `LogChannels::insert_default`: `INSERT .. ON CONFLICT DO NOTHING`. -/
def insert_default (db : DB) (guild_id : String) : DB :=
  if db.any (fun row => row.guild_id == guild_id) then db
  else db ++ [LogChannels.new guild_id]

/-- Read the single column the given `LogType` names. -/
def getColumn (row : LogChannels) (lt : LogType) : Option String :=
  match lt with
  | .Member => row.member_logs
  | .Chat => row.chat_logs
  | .Server => row.server_logs

/-- Write the single column the given `LogType` names. -/
def setColumn (row : LogChannels) (lt : LogType) (value : Option String) : LogChannels :=
  match lt with
  | .Member => { row with member_logs := value }
  | .Chat => { row with chat_logs := value }
  | .Server => { row with server_logs := value }

/-- The body of the `channels set` slash command (commands.rs `set`): a bare
`UPDATE log_channels SET <column> = ? WHERE guild_id = ?`.  It updates rows
that already exist and creates none when no row matches. -/
def set_command (db : DB) (guild_id : String) (log_type : LogType) (value : Option String) : DB :=
  db.map (fun row => if row.guild_id == guild_id then setColumn row log_type value else row)

/-- `SELECT .. FROM log_channels WHERE guild_id = ?` via `fetch_optional`. -/
def queryRow (db : DB) (guild_id : String) : Option LogChannels :=
  db.find? (fun row => row.guild_id == guild_id)

/-- `row.get::<&str>(column)`: sqlx's sqlite backend decodes a NULL column
as the empty string rather than erroring. -/
def rowGetStr (v : Option String) : String := v.getD ("")

/-- Decimal digit-string parse, structural over the character list. -/
def parse_digits : List Char → Nat → Option Nat
  | [], acc => some acc
  | c :: cs, acc => if c.isDigit then parse_digits cs (acc * 10 + (c.toNat - 48)) else none

/-- `ChannelId::from_str`: parse of a nonzero u64; fails on anything else
(in particular on the empty string a NULL column decodes to). -/
def channelIdFromStr (s : String) : Option Nat :=
  match s.data with
  | [] => none
  | cs =>
    match parse_digits cs 0 with
    | none => none
    | some n => if n ≠ 0 then some n else none

/-- commands.rs `LogType::fetch_channel`: `.ok()??` folds a failed query and
a missing row into `None`; otherwise read the column and parse it. -/
def fetch_channel (lt : LogType) (queryResult : Except Unit (Option LogChannels)) : Option Nat :=
  match queryResult with
  | .error _ => none
  | .ok none => none
  | .ok (some row) => channelIdFromStr (rowGetStr (getColumn row lt))

/-- The error outcomes of one `handle_logging_events` invocation.
`noLogChannelSet` is the typed `NoLogChannelSet` error; `panicked` models a
panic escaping the handler. -/
inductive HandlerError where
  | noLogChannelSet (log_type : LogType) (guild_id : Nat)
  | sendFailed
  | panicked
deriving DecidableEq

/-- `ChannelId::send_message`: given destination channel and message, the
platform either returns the sent message's id or fails. -/
abbrev Send := Nat → CreateMessage → Except Unit Nat

/-- The messages actually handed to the transport, in order, with the
channel they were sent to. -/
abbrev Trace := List (Nat × CreateMessage)

/-- The follow-up loop of `handle_logging_events`: each follow-up is sent
referencing the primary message with user mentions suppressed; the first
send failure aborts the loop. -/
def send_followups (send : Send) (channel : Nat) (primary_id : Nat) :
    List CreateMessage → Trace × Except HandlerError Unit
  | [] => ([], .ok ())
  | followup :: rest =>
    let msg := (followup.reference_message primary_id).allowed_mentions
      { CreateAllowedMentions.new with empty_users := true }
    match send channel msg with
    | .error _ => ([(channel, msg)], .error .sendFailed)
    | .ok _ =>
      let (tr, res) := send_followups send channel primary_id rest
      ((channel, msg) :: tr, res)

/-- logging.rs `handle_logging_events`: classify, resolve the destination
channel, send the primary message, then the follow-ups.  Returns the trace
of attempted sends together with the handler's result. -/
def handle_logging_events (ctxCache : Cache) (fetch : Fetch) (now : Int)
    (event : FullEvent) (dbq : Nat → Except Unit (Option LogChannels)) (send : Send) :
    Trace × Except HandlerError Unit :=
  match make_embed ctxCache fetch now event with
  | .error _ => ([], .error .panicked)
  | .ok none => ([], .ok ())
  | .ok (some (message, log_type, guild_id, followups)) =>
    match fetch_channel log_type (dbq guild_id) with
    | none => ([], .error (.noLogChannelSet log_type guild_id))
    | some channel =>
      match send channel message with
      | .error _ => ([(channel, message)], .error .sendFailed)
      | .ok mid =>
        match followups with
        | none => ([(channel, message)], .ok ())
        | some fs =>
          if fs ≠ [] then
            let (tr, res) := send_followups send channel mid fs
            ((channel, message) :: tr, res)
          else ([(channel, message)], .ok ())

/-! Auxiliary definitions used by the verification below: projections of
pipeline results and concrete inputs exercising the code. -/

/-- Category and guild a classification routed to, if any. -/
def payload_route : Except Unit (Option Payload) → Option (LogType × Nat)
  | .ok (some (_, lt, gid, _)) => some (lt, gid)
  | _ => none

/-- Contents of the follow-up drafts of a classification result. -/
def followup_contents : Except Unit (Option Payload) → List (Option String)
  | .ok (some (_, _, _, some fs)) => fs.map (fun f => f.content)
  | _ => []

/-- A transport that accepts every send and assigns message id 0. -/
def send_ok : Send := fun _ _ => .ok 0

/-- The messages the follow-up loop is expected to hand to the transport:
each follow-up in renderer order, referencing the primary message's id,
with user mentions suppressed. -/
def followup_payloads (channel primary_id : Nat) (fs : List CreateMessage) : Trace :=
  fs.map (fun f => (channel, (f.reference_message primary_id).allowed_mentions
    { CreateAllowedMentions.new with empty_users := true }))

/-- The message-join draft the member-addition arm renders: green accent,
join and creation instants as relative (`R`-style) Discord timestamps. -/
def member_join_message (member : Member) (j : Int) : CreateMessage :=
  let uid := member.user.id
  let uname := member.user.name
  let created := member.user.created_at
  CreateMessage.new.embed
    { author := some ⟨display_name member.user,
        member.user.avatar_url.getD member.user.default_avatar_url⟩
      colour := some Colour.DARK_GREEN
      description := some (s!"<@{uid}> ({uname}) joined.")
      fields := [⟨"Joined At", s!"<t:{j}:R>", true⟩, ⟨"Created At", s!"<t:{created}:R>", true⟩] }

/-- The primary draft for an edit with unchanged content whose attachment
diff is exactly one added URL: no New/Previous fields, an Attachments
field counting 0 removed / 1 added. -/
def c6expected_primary (old new : Message) (now : Int) : CreateMessage :=
  let nid := new.author.id
  let nname := new.author.name
  let nch := new.channel_id
  let link := new.link
  let ts := now
  CreateMessage.new.embed
    { author := some ⟨display_name old.author,
        old.author.avatar_url.getD old.author.default_avatar_url⟩
      colour := some Colour.FADED_PURPLE
      description := some
        (s!"<@{nid}> (**{nname}**) updated their message in <#{nch}>.\n [Jump to message]({link})" ++
          "\n\n Message content hasn't changed. Check followup message(s) for attachment changes.")
      fields := [⟨"Timestamp", s!"<t:{ts}>", true⟩,
        ⟨"Attachments", "**Removed**: 0 | **Added**: 1", true⟩] }

/-- The single follow-up for one added attachment: the code's actual text
is "Added attachment:" (the count is not part of the format string). -/
def c6expected_followup (att : CreateAttachment) : CreateMessage :=
  { CreateMessage.new with content := some ("Added attachment:"), files := [att] }

/-- Concrete human author shared by the concrete events below. -/
def c1user : User := ⟨11, "bob", none, none, false, none, "a", 0⟩

/-- A message whose single attachment is unchanged across an edit. -/
def c1old : Message := ⟨1, 2, some 3, c1user, "same", [⟨"https://x/a.png"⟩]⟩

/-- The edited message: same content, same attachment URL set. -/
def c1new : Message := ⟨1, 2, some 3, c1user, "same", [⟨"https://x/a.png"⟩]⟩

/-- An edited message used to witness the amended C1 statement. -/
def c1wold : Message := ⟨1, 2, some 3, c1user, "x", [⟨"u"⟩]⟩

/-- Author of the concrete delete-event message. -/
def c2user : User := ⟨10, "alice", none, none, false, none, "a", 100⟩

/-- A cached human-authored message with no attachments in guild 1. -/
def c2msg : Message := ⟨5, 6, some 1, c2user, "hi", []⟩

/-- Cache holding exactly `c2msg` at (channel 6, message 5). -/
def c2cache : Cache := fun channel_id message_id =>
  if channel_id == 6 && message_id == 5 then some c2msg else none

/-- Deletion of the cached message in guild 1. -/
def c2event : FullEvent := .MessageDelete 6 5 (some 1)

/-- An edit keeping the content but adding attachment "u". -/
def c3old : Message := ⟨1, 2, some 3, c1user, "t", []⟩

/-- The post-edit message of the C3 scenario. -/
def c3new : Message := ⟨1, 2, some 3, c1user, "t", [⟨"u"⟩]⟩

/-- A config row routing Chat logs of guild 3 to channel 77. -/
def c3row : LogChannels := ⟨"3", none, some ("77"), none⟩

/-- A cached message with one attachment, for the delete-arm panic case. -/
def c3wdelmsg : Message := ⟨5, 6, some 3, c1user, "hi", [⟨"u"⟩]⟩

/-- The edit of the end-to-end scenario behind C6: content kept, one
attachment URL added. -/
def c6old : Message := ⟨21, 22, some 23, c1user, "same", []⟩

/-- The post-edit message of the C6 scenario. -/
def c6new : Message := ⟨21, 22, some 23, c1user, "same", [⟨"https://x/new.png"⟩]⟩

/-- A fetch that succeeds on every URL. -/
def fetch_any : Fetch := fun url => some ⟨url⟩

/-- A member snapshot carrying no join timestamp. -/
def c7member : Member := ⟨⟨14, "eve", none, none, false, none, "a", 50⟩, 3, none⟩

/-- A member snapshot with join timestamp 5, in guild 7. -/
def c7wmember : Member := ⟨⟨14, "eve", none, none, false, none, "a", 50⟩, 7, some 5⟩

/-- A cached message with one attachment, used to witness the delivery
ordering theorem. -/
def c8wmsg : Message := ⟨5, 6, some 1, c2user, "hi", [⟨"u"⟩]⟩

/-- Cache holding `c8wmsg` everywhere. -/
def c8wcache : Cache := fun _ _ => some c8wmsg

/-- The primary draft `make_embed` renders for deleting `c8wmsg`. -/
def c8wprimary : CreateMessage :=
  CreateMessage.new.embed
    { author := some ⟨"@alice", "a"⟩
      colour := some Colour.RED
      description := some ("A message by <@10> (**alice**) was deleted in <#6>.")
      fields := [⟨"Content", "hi", false⟩, ⟨"Timestamp", "<t:0>", true⟩,
        ⟨"No. Attachments", "1", true⟩] }

/-- The follow-up carrying the refetched attachment of `c8wmsg`. -/
def c8wfollow : CreateMessage := { CreateMessage.new with files := [⟨"u"⟩] }

/-- A healthy database holding a row that routes Chat logs of guild 1 to
channel 42. -/
def c8wdbq : Nat → Except Unit (Option LogChannels) :=
  fun _ => .ok (some ⟨"1", none, some ("42"), none⟩)

/-! Theorems. -/

/-- Erasing every element of a list from a finite set is set difference
with the list's set of elements. -/
theorem foldl_erase_eq_sdiff (l : List String) :
    ∀ s : Finset String, l.foldl (fun t item => t.erase item) s = s \ l.toFinset := by
  induction l with
  | nil => intro s; simp
  | cons x xs ih =>
    intro s
    simp only [List.foldl_cons, ih, List.toFinset_cons]
    ext a
    simp only [Finset.mem_sdiff, Finset.mem_erase, Finset.mem_insert]
    tauto

/-- `asymmetric_diff` in closed form: added is after-minus-before, removed
is before-minus-after, as sets. -/
theorem asymmetric_diff_eq (froml tol : List String) :
    asymmetric_diff froml tol
      = ⟨tol.toFinset \ froml.toFinset, froml.toFinset \ tol.toFinset⟩ := by
  simp [asymmetric_diff, foldl_erase_eq_sdiff]

/-- Claim C4 (confirmed): for all URL sequences, added and removed are
disjoint, the self-diff is empty, removed of `diff(A,B)` is added of
`diff(B,A)`, and the diff depends only on the membership sets of its
inputs (order and multiplicity are irrelevant). -/
theorem c4_diff_algebra (A B A2 B2 : List String)
    (hA : A.toFinset = A2.toFinset) (hB : B.toFinset = B2.toFinset) :
    (asymmetric_diff A B).added ∩ (asymmetric_diff A B).removed = ∅
    ∧ asymmetric_diff A A = ⟨∅, ∅⟩
    ∧ (asymmetric_diff A B).removed = (asymmetric_diff B A).added
    ∧ asymmetric_diff A B = asymmetric_diff A2 B2 := by
  simp only [asymmetric_diff_eq]
  refine ⟨?_, ?_, ?_, ?_⟩
  · ext x
    simp only [Finset.mem_inter, Finset.mem_sdiff, Finset.not_mem_empty, iff_false]
    tauto
  · simp
  · trivial
  · rw [hA, hB]

/-- Witness for C4 at concrete inputs: the hypotheses (equal membership
sets for reordered inputs with duplicates) hold and the disjointness
conclusion follows by the theorem. -/
theorem c4_diff_algebra_witness :
    (["a", "b"] : List String).toFinset = (["b", "a", "a"] : List String).toFinset
    ∧ (asymmetric_diff ["a", "b"] ["b", "c"]).added ∩ (asymmetric_diff ["a", "b"] ["b", "c"]).removed
      = ∅ :=
  ⟨by decide,
    (c4_diff_algebra ["a", "b"] ["b", "c"] ["b", "a", "a"] ["c", "b"] (by decide) (by decide)).1⟩

/-- Claim C9 (confirmed): a message-delete event without a guild id is
suppressed before the cache or the author is even consulted, and its
delivery attempts nothing and succeeds vacuously. -/
theorem c9_dm_delete_suppressed (cache : Cache) (fetch : Fetch) (now : Int)
    (channel_id deleted_message_id : Nat)
    (dbq : Nat → Except Unit (Option LogChannels)) (send : Send) :
    make_embed cache fetch now (.MessageDelete channel_id deleted_message_id none) = .ok none
    ∧ handle_logging_events cache fetch now
        (.MessageDelete channel_id deleted_message_id none) dbq send = ([], .ok ()) :=
  ⟨rfl, rfl⟩

/-- Claim C5 (code bug): `channels set` on a guild with no existing
`log_channels` row is a silent no-op — the bare UPDATE matches nothing, no
row is created, and the subsequent lookup still returns no channel. -/
theorem c5_set_without_row_is_noop :
    set_command ([] : DB) ("9") .Chat (some ("42")) = ([] : DB)
    ∧ fetch_channel .Chat
        (.ok (queryRow (set_command ([] : DB) ("9") .Chat (some ("42"))) ("9"))) = none :=
  ⟨rfl, rfl⟩

/-- Claim C2 (code bug): on a fresh guild, `set(guild 1, Chat, 42)` leaves
the table empty, so the next Chat event yields `NoLogChannelSet` instead
of a send to 42; with a pre-existing row (as `list` would create) the set
does take effect and the event is delivered to 42, and a subsequent
`set(.., Chat, None)` makes the same event fail with `NoLogChannelSet`
without any send being attempted. -/
theorem c2_routing_set_bug :
    set_command ([] : DB) ("1") .Chat (some ("42")) = ([] : DB)
    ∧ handle_logging_events c2cache (fun _ => none) 0 c2event
        (fun _ => .ok (queryRow (set_command ([] : DB) ("1") .Chat (some ("42"))) ("1"))) send_ok
      = ([], .error (.noLogChannelSet .Chat 1))
    ∧ fetch_channel .Chat
        (.ok (queryRow (set_command (insert_default [] ("1")) ("1") .Chat (some ("42"))) ("1")))
      = some 42
    ∧ (handle_logging_events c2cache (fun _ => none) 0 c2event
        (fun _ => .ok (queryRow (set_command (insert_default [] ("1")) ("1") .Chat (some ("42"))) ("1")))
        send_ok).1.map Prod.fst = [42]
    ∧ handle_logging_events c2cache (fun _ => none) 0 c2event
        (fun _ => .ok (queryRow
          (set_command (set_command (insert_default [] ("1")) ("1") .Chat (some ("42"))) ("1") .Chat none)
          ("1"))) send_ok
      = ([], .error (.noLogChannelSet .Chat 1)) := by
  exact ⟨rfl, by decide, by decide, by decide, by decide⟩

/-- Counterexample to C1 as stated: an edit with unchanged content and
equal attachment URL sets (both sides carry the same single attachment)
still produces a draft, because the code only tests list non-emptiness. -/
theorem c1_counterexample :
    c1old.content = c1new.content
    ∧ (c1old.attachments.map (fun a => a.url)).toFinset
      = (c1new.attachments.map (fun a => a.url)).toFinset
    ∧ ((make_embed (fun _ _ => none) (fun _ => none) 0
        (.MessageUpdate (some c1old) (some c1new))).toOption.join).isSome = true :=
  ⟨rfl, rfl, by decide⟩

/-- The follow-up construction for an empty diff fetches nothing and
produces no follow-ups. -/
theorem update_followups_of_empty (fetch : Fetch) :
    update_followups fetch ⟨∅, ∅⟩ = some [] := by
  simp [update_followups]

/-- Claim C1 (corrected): for an edit with old snapshot, human author,
guild id and new snapshot, with unchanged content and unchanged attachment
list, the event is suppressed iff the attachment list is empty — the code
keys on list non-emptiness, not on emptiness of the attachment diff, so
equal nonempty attachment sets still produce a draft. -/
theorem c1_suppression_amended (cache : Cache) (fetch : Fetch) (now : Int)
    (old new : Message) (gid : Nat)
    (hbot : old.author.bot = false) (hg : old.guild_id = some gid)
    (hc : old.content = new.content) (ha : old.attachments = new.attachments) :
    (make_embed cache fetch now (.MessageUpdate (some old) (some new)) = .ok none
      ↔ old.attachments = []) := by
  by_cases hne : new.attachments = []
  · simp [make_embed, hbot, hg, hc, ha, hne]
  · simp [make_embed, hbot, hg, hc, ha, hne, asymmetric_diff_eq, Finset.sdiff_self,
      update_followups_of_empty]

/-- Witness for the amended C1 at a concrete edit whose attachment list is
nonempty and unchanged. -/
theorem c1_suppression_amended_witness :
    c1wold.author.bot = false
    ∧ (make_embed (fun _ _ => none) (fun _ => none) 0
        (.MessageUpdate (some c1wold) (some c1wold)) = .ok none
      ↔ c1wold.attachments = []) :=
  ⟨rfl, c1_suppression_amended (fun _ _ => none) (fun _ => none) 0 c1wold c1wold 3 rfl rfl rfl rfl⟩

/-- Claim C10 (confirmed): `fetch_channel` collapses a failed query and a
missing row into the same `none`, so during delivery a database I/O
failure surfaces as the very `NoLogChannelSet` error an unconfigured
destination does. -/
theorem c10_lookup_conflation (cache : Cache) (fetch : Fetch) (now : Int)
    (event : FullEvent) (send : Send) (lt : LogType) (gid : Nat)
    (hp : payload_route (make_embed cache fetch now event) = some (lt, gid)) :
    fetch_channel lt (.error ()) = none
    ∧ fetch_channel lt (.ok none) = none
    ∧ handle_logging_events cache fetch now event (fun _ => .error ()) send
      = ([], .error (.noLogChannelSet lt gid)) := by
  refine ⟨rfl, rfl, ?_⟩
  unfold handle_logging_events
  cases hme : make_embed cache fetch now event with
  | error e => rw [hme] at hp; simp [payload_route] at hp
  | ok p =>
    cases p with
    | none => rw [hme] at hp; simp [payload_route] at hp
    | some q =>
      obtain ⟨m, lt2, gid2, fol⟩ := q
      rw [hme] at hp
      simp only [payload_route, Option.some.injEq, Prod.mk.injEq] at hp
      obtain ⟨h1, h2⟩ := hp
      subst h1; subst h2
      simp [fetch_channel]

/-- Witness for C10: a concrete member-join classifies to (Member, 7), and
with a failing database the delivery fails with `NoLogChannelSet`. -/
theorem c10_lookup_conflation_witness :
    payload_route (make_embed (fun _ _ => none) (fun _ => none) 0
      (.GuildMemberAddition c7wmember)) = some (.Member, 7)
    ∧ (fetch_channel .Member (.error ()) = none
      ∧ fetch_channel .Member (.ok none) = none
      ∧ handle_logging_events (fun _ _ => none) (fun _ => none) 0
          (.GuildMemberAddition c7wmember) (fun _ => .error ()) send_ok
        = ([], .error (.noLogChannelSet .Member 7))) :=
  ⟨by decide,
    c10_lookup_conflation (fun _ _ => none) (fun _ => none) 0
      (.GuildMemberAddition c7wmember) send_ok .Member 7 (by decide)⟩

/-- Counterexample to C7 as stated: a member-join whose snapshot carries
no join timestamp produces no draft (the `joined_at?` early-returns). -/
theorem c7_counterexample :
    make_embed (fun _ _ => none) (fun _ => none) 0 (.GuildMemberAddition c7member) = .ok none :=
  rfl

/-- Claim C7 (corrected): every member-join whose snapshot carries a join
timestamp produces a draft under the Member category, reporting join time
and account-creation time as relative timestamps; without a join
timestamp the event is suppressed. -/
theorem c7_member_join_amended (cache : Cache) (fetch : Fetch) (now : Int)
    (member : Member) (j : Int) (hj : member.joined_at = some j) :
    make_embed cache fetch now (.GuildMemberAddition member)
      = .ok (some (member_join_message member j, .Member, member.guild_id, none)) := by
  simp [make_embed, hj, member_join_message, base_embed, CreateEmbed.field, CreateMessage.embed,
    CreateMessage.new, CreateEmbed.new]

/-- Witness for the amended C7 at a concrete member with join timestamp 5
in guild 7. -/
theorem c7_member_join_amended_witness :
    c7wmember.joined_at = some 5
    ∧ make_embed (fun _ _ => none) (fun _ => none) 0 (.GuildMemberAddition c7wmember)
      = .ok (some (member_join_message c7wmember 5, .Member, 7, none)) :=
  ⟨rfl, c7_member_join_amended (fun _ _ => none) (fun _ => none) 0 c7wmember 5 rfl⟩

/-- Counterexample to C3 as stated: every fetch fails, the edit adds an
attachment, a Chat destination is configured — yet the pipeline reports
plain success with no send and no error: the failure is not propagated as
a delivery-path error, the whole event is silently dropped. -/
theorem c3_counterexample :
    make_embed (fun _ _ => none) (fun _ => none) 0
      (.MessageUpdate (some c3old) (some c3new)) = .ok none
    ∧ handle_logging_events (fun _ _ => none) (fun _ => none) 0
        (.MessageUpdate (some c3old) (some c3new)) (fun _ => .ok (some c3row)) send_ok
      = ([], .ok ()) :=
  ⟨by decide, by decide⟩

/-- Claim C3 (corrected): a failed attachment refetch never surfaces as a
delivery-path error.  In the delete arm the failed fetch is `unwrap`ped,
so the handler panics; in the update arm the `.ok()?` aborts the whole
draft, the classifier yields no draft and the handler reports success. -/
theorem c3_fetch_failure_amended (cache : Cache) (fetch : Fetch) (now : Int)
    (channel_id message_id gid : Nat) (msg old new : Message)
    (dbq : Nat → Except Unit (Option LogChannels)) (send : Send)
    (hcache : cache channel_id message_id = some msg) (hbot : msg.author.bot = false)
    (hatt : msg.attachments ≠ [])
    (hfail : fetch_all fetch (msg.attachments.map (fun attachment => attachment.url)) = none)
    (hobot : old.author.bot = false) (hog : old.guild_id = some gid)
    (hne : old.attachments ≠ [] ∨ new.attachments ≠ [])
    (hfol : update_followups fetch
      (asymmetric_diff (old.attachments.map (fun a => a.url))
        (new.attachments.map (fun a => a.url))) = none) :
    make_embed cache fetch now (.MessageDelete channel_id message_id (some gid)) = .error ()
    ∧ handle_logging_events cache fetch now
        (.MessageDelete channel_id message_id (some gid)) dbq send = ([], .error .panicked)
    ∧ make_embed cache fetch now (.MessageUpdate (some old) (some new)) = .ok none
    ∧ handle_logging_events cache fetch now
        (.MessageUpdate (some old) (some new)) dbq send = ([], .ok ()) := by
  have h1 : make_embed cache fetch now (.MessageDelete channel_id message_id (some gid))
      = .error () := by
    simp [make_embed, hcache, hbot, hatt, hfail]
  have h3 : make_embed cache fetch now (.MessageUpdate (some old) (some new)) = .ok none := by
    simp [make_embed, hobot, hog, hne, hfol]
  refine ⟨h1, ?_, h3, ?_⟩
  · unfold handle_logging_events; rw [h1]
  · unfold handle_logging_events; rw [h3]

/-- Witness for the amended C3: with a fetch that fails on every URL, the
concrete delete event panics and the concrete update event is silently
suppressed. -/
theorem c3_fetch_failure_amended_witness :
    fetch_all (fun _ => none) (c3wdelmsg.attachments.map (fun attachment => attachment.url)) = none
    ∧ (make_embed (fun _ _ => some c3wdelmsg) (fun _ => none) 0
        (.MessageDelete 6 5 (some 3)) = .error ()
      ∧ handle_logging_events (fun _ _ => some c3wdelmsg) (fun _ => none) 0
          (.MessageDelete 6 5 (some 3)) (fun _ => .ok (some c3row)) send_ok
        = ([], .error .panicked)
      ∧ make_embed (fun _ _ => some c3wdelmsg) (fun _ => none) 0
          (.MessageUpdate (some c3old) (some c3new)) = .ok none
      ∧ handle_logging_events (fun _ _ => some c3wdelmsg) (fun _ => none) 0
          (.MessageUpdate (some c3old) (some c3new)) (fun _ => .ok (some c3row)) send_ok
        = ([], .ok ())) :=
  ⟨by decide,
    c3_fetch_failure_amended (fun _ _ => some c3wdelmsg) (fun _ => none) 0 6 5 3
      c3wdelmsg c3old c3new (fun _ => .ok (some c3row)) send_ok rfl rfl (by decide) (by decide)
      rfl rfl (by decide) (by decide)⟩

/-- Iterating a one-element hash set yields that element. -/
theorem hashset_iter_singleton (u : String) : hashset_iter {u} = [u] := rfl

/-- Counterexample to C6 as stated: for the concrete scenario-3 edit the
single follow-up's text is "Added attachment:", not "Added 1 attachment:"
— the count is not part of the format string. -/
theorem c6_counterexample :
    followup_contents (make_embed (fun _ _ => none) fetch_any 0
      (.MessageUpdate (some c6old) (some c6new))) = [some ("Added attachment:")]
    ∧ followup_contents (make_embed (fun _ _ => none) fetch_any 0
      (.MessageUpdate (some c6old) (some c6new))) ≠ [some ("Added 1 attachment:")] :=
  ⟨by decide, by decide⟩

/-- Claim C6 (corrected): an edit with identical content and exactly one
added attachment URL puts no content-diff fields on the primary message
(its embed fields are exactly Timestamp and Attachments) and produces
exactly one follow-up, whose text is "Added attachment:", sent after the
primary and referencing its id with user mentions suppressed. -/
theorem c6_one_added_attachment_amended (cache : Cache) (fetch : Fetch) (now : Int)
    (old new : Message) (gid : Nat) (u : String) (att : CreateAttachment)
    (dbq : Nat → Except Unit (Option LogChannels)) (ch : Nat)
    (hbot : old.author.bot = false) (hg : old.guild_id = some gid)
    (hc : old.content = new.content) (hoa : old.attachments = [])
    (hna : new.attachments = [⟨u⟩]) (hf : fetch u = some att)
    (hch : fetch_channel .Chat (dbq gid) = some ch) :
    make_embed cache fetch now (.MessageUpdate (some old) (some new))
      = .ok (some (c6expected_primary old new now, .Chat, gid, some [c6expected_followup att]))
    ∧ (c6expected_primary old new now).embeds.map (fun e => e.fields.map (fun f => f.name))
      = [["Timestamp", "Attachments"]]
    ∧ handle_logging_events cache fetch now (.MessageUpdate (some old) (some new)) dbq send_ok
      = ([(ch, c6expected_primary old new now),
          (ch, ((c6expected_followup att).reference_message 0).allowed_mentions
            { CreateAllowedMentions.new with empty_users := true })], .ok ()) := by
  have hdiff : asymmetric_diff [] [u] = ⟨{u}, ∅⟩ := by
    rw [asymmetric_diff_eq]; simp
  have hfol : update_followups fetch ⟨{u}, ∅⟩ = some [c6expected_followup att] := by
    simp [update_followups, hashset_iter_singleton, fetch_all, hf, c6expected_followup,
      pluralize, Finset.singleton_ne_empty]
    rfl
  have hme : make_embed cache fetch now (.MessageUpdate (some old) (some new))
      = .ok (some (c6expected_primary old new now, .Chat, gid, some [c6expected_followup att])) := by
    simp [make_embed, hbot, hg, hc, hoa, hna, hdiff, hfol, c6expected_primary,
      CreateMessage.embed, CreateMessage.new, CreateEmbed.field, base_embed, CreateEmbed.new]
    rfl
  refine ⟨hme, ?_, ?_⟩
  · simp [c6expected_primary, CreateMessage.embed, CreateMessage.new]
  · unfold handle_logging_events
    simp [hme, hch, send_ok, send_followups]

/-- Witness for the amended C6 at the concrete scenario-3 edit. -/
theorem c6_one_added_attachment_amended_witness :
    fetch_any ("https://x/new.png") = some ⟨"https://x/new.png"⟩
    ∧ (make_embed (fun _ _ => none) fetch_any 0 (.MessageUpdate (some c6old) (some c6new))
        = .ok (some (c6expected_primary c6old c6new 0, .Chat, 23,
            some [c6expected_followup ⟨"https://x/new.png"⟩]))
      ∧ (c6expected_primary c6old c6new 0).embeds.map (fun e => e.fields.map (fun f => f.name))
        = [["Timestamp", "Attachments"]]
      ∧ handle_logging_events (fun _ _ => none) fetch_any 0
          (.MessageUpdate (some c6old) (some c6new)) (fun _ => .ok (some ⟨"23", none, some ("77"), none⟩))
          send_ok
        = ([(77, c6expected_primary c6old c6new 0),
            (77, ((c6expected_followup ⟨"https://x/new.png"⟩).reference_message 0).allowed_mentions
              { CreateAllowedMentions.new with empty_users := true })], .ok ())) :=
  ⟨rfl,
    c6_one_added_attachment_amended (fun _ _ => none) fetch_any 0 c6old c6new 23
      ("https://x/new.png") ⟨"https://x/new.png"⟩
      (fun _ => .ok (some ⟨"23", none, some ("77"), none⟩)) 77
      rfl rfl rfl rfl rfl rfl (by decide)⟩

/-- The follow-up loop sends a prefix of the expected referenced payloads,
all of them exactly when it reports success, and fails only with
`sendFailed`. -/
theorem send_followups_spec (send : Send) (channel primary_id : Nat)
    (fs : List CreateMessage) :
    ∃ n, n ≤ fs.length
      ∧ (send_followups send channel primary_id fs).1
        = (followup_payloads channel primary_id fs).take n
      ∧ ((send_followups send channel primary_id fs).2 = .ok () → n = fs.length)
      ∧ ((send_followups send channel primary_id fs).2 = .ok ()
        ∨ (send_followups send channel primary_id fs).2 = .error .sendFailed) := by
  induction fs with
  | nil => exact ⟨0, by simp [send_followups, followup_payloads]⟩
  | cons f rest ih =>
    obtain ⟨n, hn, htr, hok, hres⟩ := ih
    cases hs : send channel ((f.reference_message primary_id).allowed_mentions
        { CreateAllowedMentions.new with empty_users := true }) with
    | error e =>
      refine ⟨1, by simp, ?_, ?_, ?_⟩
      · simp [send_followups, hs, followup_payloads]
      · intro h; exfalso; revert h; simp [send_followups, hs]
      · right; simp [send_followups, hs]
    | ok mid2 =>
      refine ⟨n + 1, by simpa using hn, ?_, ?_, ?_⟩
      · simpa [send_followups, hs, followup_payloads] using htr
      · intro h
        have := hok (by simpa [send_followups, hs] using h)
        simp [this]
      · rcases hres with h | h
        · left; simpa [send_followups, hs] using h
        · right; simpa [send_followups, hs] using h

/-- Claim C8 (confirmed): delivery sends the primary message first; the
remaining trace is a prefix of the follow-ups in renderer order, each
referencing the primary id with user mentions suppressed; the prefix is
complete exactly when the handler succeeds, and any follow-up failure
surfaces as `sendFailed`, aborting the rest. -/
theorem c8_delivery_order (cache : Cache) (fetch : Fetch) (now : Int) (event : FullEvent)
    (dbq : Nat → Except Unit (Option LogChannels)) (send : Send)
    (m : CreateMessage) (lt : LogType) (gid : Nat) (fs : List CreateMessage)
    (ch mid : Nat)
    (hp : make_embed cache fetch now event = .ok (some (m, lt, gid, some fs)))
    (hch : fetch_channel lt (dbq gid) = some ch)
    (hsend : send ch m = .ok mid) :
    (handle_logging_events cache fetch now event dbq send).1
      = (ch, m) :: (followup_payloads ch mid fs).take
          ((handle_logging_events cache fetch now event dbq send).1.length - 1)
    ∧ (handle_logging_events cache fetch now event dbq send).1.length - 1 ≤ fs.length
    ∧ ((handle_logging_events cache fetch now event dbq send).2 = .ok ()
      → (handle_logging_events cache fetch now event dbq send).1.length - 1 = fs.length)
    ∧ ((handle_logging_events cache fetch now event dbq send).2 = .ok ()
      ∨ (handle_logging_events cache fetch now event dbq send).2 = .error .sendFailed) := by
  have hH : handle_logging_events cache fetch now event dbq send
      = ((ch, m) :: (send_followups send ch mid fs).1, (send_followups send ch mid fs).2) := by
    by_cases hfs : fs = []
    · subst hfs
      unfold handle_logging_events
      simp [hp, hch, hsend, send_followups]
    · unfold handle_logging_events
      rcases hsf : send_followups send ch mid fs with ⟨tr, res⟩
      simp [hp, hch, hsend, hfs, hsf]
  obtain ⟨n, hn, htr, hok, hres⟩ := send_followups_spec send ch mid fs
  have hlen : (send_followups send ch mid fs).1.length = n := by
    rw [htr]; simp [followup_payloads, List.length_take]; omega
  rw [hH]
  simp only [List.length_cons, Nat.add_sub_cancel, hlen]
  exact ⟨by rw [htr], hn, hok, hres⟩

/-- Witness for C8: a concrete delete with one attachment is delivered to
channel 42, primary first, then the single follow-up referencing it. -/
theorem c8_delivery_order_witness :
    make_embed c8wcache fetch_any 0 (.MessageDelete 6 5 (some 1))
      = .ok (some (c8wprimary, .Chat, 1, some [c8wfollow]))
    ∧ (handle_logging_events c8wcache fetch_any 0 (.MessageDelete 6 5 (some 1)) c8wdbq send_ok).1
      = (42, c8wprimary) :: (followup_payloads 42 0 [c8wfollow]).take
          ((handle_logging_events c8wcache fetch_any 0 (.MessageDelete 6 5 (some 1)) c8wdbq
            send_ok).1.length - 1) :=
  ⟨by decide,
    (c8_delivery_order c8wcache fetch_any 0 (.MessageDelete 6 5 (some 1)) c8wdbq send_ok
      c8wprimary .Chat 1 [c8wfollow] 42 0 (by decide) (by decide) rfl).1⟩

end Logsalot
